import Mathlib

/-!
Shallow embedding of the workflow invocation bridge implemented in
packages/cli/src/modules/mcp/tools/execute-workflow.tool.ts.

JavaScript values are modelled explicitly: an absent or undefined field is
Option.none, a thrown exception is the error side of Except, and the external
collaborators (the manual-executability predicate, the manual-run dispatcher,
the live post-execute promise and the execution repository) are parameters of
the handler. A single parameter `now` stands for the clock reads of one
invocation, and `parse` stands for JavaScript date parsing of strings: some
millis for a string denoting a valid instant, none when the parse produces an
invalid date.
-/

namespace ExecWorkflowTool

/-- Workflow node: unique name, node type string, disabled flag. The code only
reads these three properties of a node. -/
structure Node where
  name : String
  type : String
  disabled : Bool
  deriving DecidableEq, Repr

/-- Workflow settings object; the handler reads only `availableInMCP`. -/
structure WorkflowSettings where
  availableInMCP : Bool
  deriving DecidableEq, Repr

/-- Workflow entity as read by the handler: nodes, `isArchived`, and an
optional settings object. -/
structure Workflow where
  nodes : List Node
  isArchived : Bool
  settings : Option WorkflowSettings
  deriving DecidableEq, Repr

/-- Caller inputs object of the tool schema (`workflowInputs`): every field is
optional. `formData` and `webhookData` are opaque objects; the handler never
reads them, so their carrier only needs equality. -/
structure Inputs where
  chatInput : Option String
  formData : Option (List (String × String))
  webhookData : Option (List (String × String))
  deriving DecidableEq, Repr

/-- Fragment of JavaScript values appearing in synthesized trigger payloads:
strings, the undefined value (an object key whose value is undefined), and the
empty object literal. -/
inductive JsValue where
  | undef
  | str (s : String)
  | emptyObj
  deriving DecidableEq, Repr

/-- Item placed at data.main of a synthesized trigger: an object with a `json`
property. -/
structure TriggerItem where
  json : List (String × JsValue)
  deriving DecidableEq, Repr

/-- The `data:` object nested inside the trigger task data, holding `main`. -/
structure MainData where
  main : List (List TriggerItem)
  deriving DecidableEq, Repr

/-- Task data attached to `triggerToStartFrom`: startTime, executionTime,
executionIndex, source and the nested data object. -/
structure TriggerStartData where
  startTime : Int
  executionTime : Int
  executionIndex : Int
  source : List Unit
  data : MainData
  deriving DecidableEq, Repr

/-- The `triggerToStartFrom` field of a manual run payload: a node name plus
the synthesized task data. -/
structure TriggerToStartFrom where
  name : String
  data : TriggerStartData
  deriving DecidableEq, Repr

/-- Manual run payload submitted to the engine: the workflow snapshot and the
optional synthetic start. -/
structure ManualRunPayload where
  workflowData : Workflow
  triggerToStartFrom : Option TriggerToStartFrom
  deriving DecidableEq, Repr

/-- Response of workflowExecutionService.executeManually: an optional
execution id and the waitingForWebhook flag. -/
structure ExecutionResponse where
  executionId : Option String
  waitingForWebhook : Bool
  deriving DecidableEq, Repr

/-- Value stored in the nested result-data error slot, as far as the handler
inspects it: either a non-object value (modelled by a string) or an object
with an optional `message` property. Absence of the slot is Option.none one
level up. -/
inductive ErrVal where
  | str (s : String)
  | obj (message : Option String)
  deriving DecidableEq, Repr

/-- The resultData object of an execution's data. -/
structure ResultData where
  error : Option ErrVal
  deriving DecidableEq, Repr

/-- The data object of an execution, holding the optional resultData. -/
structure ExecData where
  resultData : Option ResultData
  deriving DecidableEq, Repr

/-- Timestamp value as stored on a raw execution: a Date object for a valid
instant, or a string. Invalid strings are the ones `parse` rejects. -/
inductive DateVal where
  | date (millis : Int)
  | str (s : String)
  deriving DecidableEq, Repr

/-- Raw execution value, covering both raw shapes the tool receives (live run
object IRun and persisted record IExecutionResponse): `id` is some exactly
when the shape carries an id key, `finished` is none when the key is absent
or undefined. -/
structure RawExecution where
  id : Option String
  status : String
  finished : Option Bool
  mode : String
  startedAt : Option DateVal
  stoppedAt : Option DateVal
  waitTill : Option DateVal
  data : Option ExecData
  deriving DecidableEq, Repr

/-- Output shape of serializeExecution for a non-null execution. -/
structure SerializedExecution where
  id : Option String
  status : String
  finished : Bool
  mode : String
  startedAt : String
  stoppedAt : Option String
  waitTill : Option String
  data : Option ExecData
  error : Option ErrVal
  deriving DecidableEq, Repr

/-- Errors thrown by the modelled code paths. All of them are instances of
Error in JavaScript, with a name and a message. -/
inductive JsErr where
  | userError (message : String)
  | executionNotFound (message : String)
  | rangeError
  | typeError (message : String)
  | genericError (name message : String)
  deriving DecidableEq, Repr

/-- The `name` property of a thrown error. -/
def JsErr.name : JsErr → String
  | .userError _ => "UserError"
  | .executionNotFound _ => "ExecutionNotFoundError"
  | .rangeError => "RangeError"
  | .typeError _ => "TypeError"
  | .genericError n _ => n

/-- The `message` property of a thrown error. The RangeError raised by
Date.prototype.toISOString on an invalid date carries this fixed text. -/
def JsErr.message : JsErr → String
  | .userError m => m
  | .executionNotFound m => m
  | .rangeError => "Invalid time value"
  | .typeError m => m
  | .genericError _ m => m

/-- The error slot of a returned payload: either the serialized execution's
nested error copied through, or the serializeError output of a caught error
(name and message; the stack is not modelled). -/
inductive PayloadError where
  | fromResult (e : ErrVal)
  | fromCatch (name message : String)
  deriving DecidableEq, Repr

/-- Structured content of the tool response. A field the code leaves out of a
payload literal (or sets to undefined) is none / false here; `hasResultField`
records whether the payload literal carries a `result` key at all. -/
structure ToolPayload where
  success : Bool
  executionId : Option String
  waitingForWebhook : Option Bool := none
  message : Option String := none
  hasResultField : Bool := false
  result : Option SerializedExecution := none
  error : Option PayloadError := none
  deriving DecidableEq, Repr

/-- Options object passed to executionRepository.findSingleExecution. -/
structure FindOptions where
  includeData : Bool
  unflattenData : Bool
  deriving DecidableEq, Repr

/-- Models the text produced by Date.prototype.toISOString for the instant
`millis` milliseconds after the epoch. The calendar formatting is a JS builtin
outside this repository; the model keeps only that the text is determined by
the instant. -/
def jsToISOString (millis : Int) : String :=
  "iso:" ++ toString millis

/-- Node type string of the chat trigger. -/
def chatTriggerNodeType : String := "@n8n/n8n-nodes-langchain.chatTrigger"

/-- Node type string of the form trigger. -/
def formTriggerNodeType : String := "n8n-nodes-base.formTrigger"

/-- Node type string of the webhook node. -/
def webhookNodeType : String := "n8n-nodes-base.webhook"

/-- Fixed message returned when the engine reports waitingForWebhook. -/
def MANUAL_EXECUTION_ERROR_MESSAGE : String :=
  "This workflow requires waiting for an external trigger (for example a webhook) before it can run. Manual execution via MCP is not possible."

/-- Predicate of the three node scans in the handler:
`(node) => !node.disabled && node.type === ty`. -/
def enabledOfType (ty : String) (n : Node) : Bool :=
  !n.disabled && n.type == ty

/-- Truthiness of `workflow.settings?.availableInMCP`. -/
def availableInMCPFlag (wf : Workflow) : Bool :=
  match wf.settings with
  | some s => s.availableInMCP
  | none => false

/-- JavaScript value of `inputs.chatInput` once `inputs` is known defined. -/
def optStrToJs : Option String → JsValue
  | none => .undef
  | some s => .str s

/-- Helper toIsoString of the tool file: null for a falsy value (null,
undefined or the empty string), the ISO text of a Date, and for any other
string the result of new Date(value).toISOString(), which throws a RangeError
when the string does not parse as a valid date. -/
def toIsoString (parse : String → Option Int) (value : Option DateVal) :
    Except JsErr (Option String) :=
  match value with
  | none => .ok none
  | some (.date m) => .ok (some (jsToISOString m))
  | some (.str s) =>
    if s = "" then .ok none
    else
      match parse s with
      | some m => .ok (some (jsToISOString m))
      | none => .error .rangeError

/-- serializeExecution of the tool file: null maps to null; otherwise the raw
execution is reshaped, with `finished` falling back to `status === "success"`,
`startedAt` falling back to the current instant, and the error read from the
nested resultData slot. Timestamp coercion may throw, which propagates. -/
def serializeExecution (parse : String → Option Int) (now : Int)
    (execution : Option RawExecution) : Except JsErr (Option SerializedExecution) :=
  match execution with
  | none => .ok none
  | some e =>
    match toIsoString parse e.startedAt with
    | .error err => .error err
    | .ok started =>
      match toIsoString parse e.stoppedAt with
      | .error err => .error err
      | .ok stopped =>
        match toIsoString parse e.waitTill with
        | .error err => .error err
        | .ok waitT =>
          .ok (some {
            id := e.id,
            status := e.status,
            finished := match e.finished with
              | some b => b
              | none => e.status == "success",
            mode := e.mode,
            startedAt := started.getD (jsToISOString now),
            stoppedAt := stopped,
            waitTill := waitT,
            data := e.data,
            error := (e.data.bind ExecData.resultData).bind ResultData.error })

/-- waitForExecutionResult of the tool file: await the live post-execute
promise; only an ExecutionNotFoundError triggers the fallback read of the
persisted record with includeData and unflattenData; any other error is
rethrown unchanged. -/
def waitForExecutionResult (executionId : String)
    (live : String → Except JsErr (Option RawExecution))
    (repo : String → FindOptions → Option RawExecution) :
    Except JsErr (Option RawExecution) :=
  match live executionId with
  | .ok result => .ok result
  | .error (.executionNotFound _) =>
    .ok (repo executionId { includeData := true, unflattenData := true })
  | .error e => .error e

/-- Classification and synthetic-start synthesis of the handler (the block
guarded by canManuallyExecute): when the workflow cannot be executed manually,
find the first enabled chat trigger, form trigger and webhook node, pick the
first of the three in that order, synthesize its trigger data and attach it as
triggerToStartFrom. Reading `inputs.chatInput` while `inputs` is undefined
throws a TypeError, exactly as in JavaScript. -/
def applySyntheticStart (workflow : Workflow) (inputs : Option Inputs)
    (canManuallyExecute : Bool) (now : Int) : Except JsErr ManualRunPayload :=
  if canManuallyExecute then
    .ok { workflowData := workflow, triggerToStartFrom := none }
  else
    let chatTriggerNode := workflow.nodes.find? (enabledOfType chatTriggerNodeType)
    let formTriggerNode := workflow.nodes.find? (enabledOfType formTriggerNodeType)
    let webhookNode := workflow.nodes.find? (enabledOfType webhookNodeType)
    match chatTriggerNode.or (formTriggerNode.or webhookNode) with
    | none => .ok { workflowData := workflow, triggerToStartFrom := none }
    | some triggerNode =>
      let triggerDataE : Except JsErr (List (String × JsValue)) :=
        if chatTriggerNode.isSome then
          match inputs with
          | none => .error (.typeError "Cannot read properties of undefined")
          | some i =>
            .ok [("sessionId", .str ("mcp-session-" ++ toString now)),
                 ("action", .str "sendMessage"),
                 ("chatInput", optStrToJs i.chatInput)]
        else if formTriggerNode.isSome then
          .ok [("submittedAt", .str (jsToISOString now)), ("formMode", .str "test")]
        else
          .ok [("headers", .emptyObj), ("params", .emptyObj),
               ("query", .emptyObj), ("body", .emptyObj)]
      match triggerDataE with
      | .error e => .error e
      | .ok triggerData =>
        .ok { workflowData := workflow,
              triggerToStartFrom := some {
                name := triggerNode.name,
                data := {
                  startTime := now,
                  executionTime := 0,
                  executionIndex := 0,
                  source := [],
                  data := { main := [[{ json := triggerData }]] } } } }

/-- Final payload construction of the handler (the block following the try):
success is `executionResult?.status !== "error"`, the error slot copies
`executionResult?.error`, a missing result forces success false with the
retrieval message, and a truthy object-typed error installs its message or the
fixed error text. -/
def buildResultPayload (executionId : String)
    (executionResult : Option SerializedExecution) : ToolPayload :=
  let base : ToolPayload := {
    success := match executionResult with
      | some r => !(r.status == "error")
      | none => true,
    executionId := some executionId,
    hasResultField := true,
    result := executionResult,
    error := match executionResult with
      | some r => r.error.map PayloadError.fromResult
      | none => none }
  let withMiss : ToolPayload := match executionResult with
    | none => { base with
        success := false,
        message := some "Execution finished but result could not be retrieved." }
    | some _ => base
  match executionResult with
  | some r =>
    match r.error with
    | some (.obj msg) =>
      { withMiss with message := some (msg.getD "Execution finished with an error.") }
    | _ => withMiss
  | none => withMiss

/-- The execute-workflow tool handler. `workflow` is the result of
findWorkflowForUser, `canManuallyExecute` the result of isManuallyExecutable,
`dispatch` the executeManually entry point, `live` the post-execute promise
lookup and `repo` the persisted execution lookup. The returned Except is error
exactly when the handler throws out of the tool call. The guard on the
dispatched identifier models JavaScript falsiness of
`executionResponse.executionId ?? null`: both a null and an empty-string
identifier take the dispatch-failure branch. -/
def handler (workflow : Option Workflow) (inputs : Option Inputs)
    (canManuallyExecute : Bool) (now : Int)
    (dispatch : ManualRunPayload → ExecutionResponse)
    (live : String → Except JsErr (Option RawExecution))
    (repo : String → FindOptions → Option RawExecution)
    (parse : String → Option Int) : Except JsErr ToolPayload :=
  match workflow with
  | none => .error (.userError "Workflow not found")
  | some wf =>
    if wf.isArchived || !availableInMCPFlag wf then
      .error (.userError "Workflow not found")
    else
      match applySyntheticStart wf inputs canManuallyExecute now with
      | .error e => .error e
      | .ok manualRunPayload =>
        let executionResponse := dispatch manualRunPayload
        if executionResponse.waitingForWebhook then
          .ok { success := false,
                executionId := executionResponse.executionId,
                waitingForWebhook := some true,
                message := some MANUAL_EXECUTION_ERROR_MESSAGE }
        else
          match executionResponse.executionId with
          | none =>
            .ok { success := false,
                  executionId := none,
                  message := some "Failed to start execution: no execution ID returned." }
          | some executionId =>
            if executionId = "" then
              .ok { success := false,
                    executionId := none,
                    message := some "Failed to start execution: no execution ID returned." }
            else
            match (waitForExecutionResult executionId live repo).bind
                (serializeExecution parse now) with
            | .error err =>
              .ok { success := false,
                    executionId := some executionId,
                    message := some err.message,
                    error := some (.fromCatch err.name err.message) }
            | .ok executionResult =>
              .ok (buildResultPayload executionId executionResult)

/-- Name of the node targeted by the synthetic start of a payload, when the
synthesis succeeded and attached one. -/
def chosenTriggerName (r : Except JsErr ManualRunPayload) : Option String :=
  match r with
  | .ok p => p.triggerToStartFrom.map TriggerToStartFrom.name
  | .error _ => none

/-- Json payload injected at the synthetic start node, when present in the
canonical single-item shape. -/
def chosenTriggerJson (r : Except JsErr ManualRunPayload) :
    Option (List (String × JsValue)) :=
  match r with
  | .ok p =>
    match p.triggerToStartFrom with
    | some t =>
      match t.data.data.main with
      | [[item]] => some item.json
      | _ => none
    | none => none
  | .error _ => none

/-- Whether an Except value is on the ok side. -/
def isOkE {ε α : Type} : Except ε α → Bool
  | .ok _ => true
  | .error _ => false

/-- A timestamp value on which toIsoString cannot throw under the given
parse: absent, a Date, the empty string, or a string the parse accepts. -/
def datevalSafe (parse : String → Option Int) : Option DateVal → Bool
  | none => true
  | some (.date _) => true
  | some (.str s) => s == "" || (parse s).isSome

/-- Modelled from the spec: the normalized finished flag is the raw shape's
own finished flag if present, otherwise the comparison of status with
success. -/
def specFinished (e : RawExecution) : Bool :=
  match e.finished with
  | some b => b
  | none => e.status == "success"

/-- Message installed for an error-status result as a function of the nested
error slot: the nested object's message when present, the fixed error text for
an object without one, nothing for an absent or non-object error. -/
def errorStatusMessage (e : Option ErrVal) : Option String :=
  match e with
  | some (.obj m) => some (m.getD "Execution finished with an error.")
  | _ => none

/-- Date parser rejecting every string, as JavaScript does on strings such as
"not-a-date". -/
def parse0 : String → Option Int := fun _ => none

/-- Repository with no persisted executions. -/
def repo0 : String → FindOptions → Option RawExecution := fun _ _ => none

/-- Live lookup resolving to undefined. -/
def live0 : String → Except JsErr (Option RawExecution) := fun _ => .ok none

/-- Inputs object with every optional field omitted. -/
def inputsEmpty : Inputs := { chatInput := none, formData := none, webhookData := none }

/-- Inputs object carrying only caller-supplied webhook data. -/
def inputsWebhook : Inputs :=
  { chatInput := none, formData := none, webhookData := some [("x", "1")] }

/-- An enabled chat trigger node. -/
def chatNode : Node := { name := "Chat", type := chatTriggerNodeType, disabled := false }

/-- An enabled webhook node. -/
def hookNode : Node := { name := "Hook", type := webhookNodeType, disabled := false }

/-- Workflow with no nodes, available in MCP. -/
def wfPlain : Workflow :=
  { nodes := [], isArchived := false, settings := some { availableInMCP := true } }

/-- Workflow whose only node is an enabled chat trigger. -/
def wfChat : Workflow :=
  { nodes := [chatNode], isArchived := false, settings := some { availableInMCP := true } }

/-- Workflow whose only node is an enabled webhook node. -/
def wfHook : Workflow :=
  { nodes := [hookNode], isArchived := false, settings := some { availableInMCP := true } }

/-- Workflow with both an enabled chat trigger and an enabled webhook node. -/
def wfBoth : Workflow :=
  { nodes := [chatNode, hookNode], isArchived := false,
    settings := some { availableInMCP := true } }

/-- Dispatcher returning execution id e1 and no webhook wait. -/
def dispatchE1 : ManualRunPayload → ExecutionResponse :=
  fun _ => { executionId := some "e1", waitingForWebhook := false }

/-- Dispatcher returning neither an execution id nor the waiting flag. -/
def dispatchNone : ManualRunPayload → ExecutionResponse :=
  fun _ => { executionId := none, waitingForWebhook := false }

/-- A nested error object carrying a message. -/
def errBoom : ErrVal := .obj (some "boom")

/-- Raw execution with status success whose resultData still carries an
error object. -/
def execSuccessWithError : RawExecution :=
  { id := some "e1", status := "success", finished := some true, mode := "manual",
    startedAt := some (.date 0), stoppedAt := some (.date 1), waitTill := none,
    data := some { resultData := some { error := some errBoom } } }

/-- Live lookup resolving to execSuccessWithError. -/
def liveSuccessWithError : String → Except JsErr (Option RawExecution) :=
  fun _ => .ok (some execSuccessWithError)

/-- Serialized form of execSuccessWithError at clock 0. -/
def serSuccessWithError : SerializedExecution :=
  { id := some "e1", status := "success", finished := true, mode := "manual",
    startedAt := jsToISOString 0, stoppedAt := some (jsToISOString 1), waitTill := none,
    data := some { resultData := some { error := some errBoom } },
    error := some errBoom }

/-- Payload returned for execSuccessWithError: success true with a non-null
error slot. -/
def payloadSuccessWithError : ToolPayload :=
  { success := true, executionId := some "e1", waitingForWebhook := none,
    message := some "boom", hasResultField := true,
    result := some serSuccessWithError, error := some (.fromResult errBoom) }

/-- Raw execution that completed successfully with no error slot. -/
def execGood : RawExecution :=
  { id := some "e1", status := "success", finished := some true, mode := "manual",
    startedAt := some (.date 0), stoppedAt := some (.date 1), waitTill := none,
    data := none }

/-- Live lookup resolving to execGood. -/
def liveGood : String → Except JsErr (Option RawExecution) :=
  fun _ => .ok (some execGood)

/-- Serialized form of execGood at clock 0. -/
def serGood : SerializedExecution :=
  { id := some "e1", status := "success", finished := true, mode := "manual",
    startedAt := jsToISOString 0, stoppedAt := some (jsToISOString 1), waitTill := none,
    data := none, error := none }

/-- Payload returned for execGood. -/
def payloadGood : ToolPayload :=
  { success := true, executionId := some "e1", waitingForWebhook := none,
    message := none, hasResultField := true, result := some serGood, error := none }

/-- Raw execution with status error and no nested error slot. -/
def execErrorNoSlot : RawExecution :=
  { id := some "e1", status := "error", finished := some false, mode := "manual",
    startedAt := some (.date 0), stoppedAt := none, waitTill := none, data := none }

/-- Live lookup resolving to execErrorNoSlot. -/
def liveErrorNoSlot : String → Except JsErr (Option RawExecution) :=
  fun _ => .ok (some execErrorNoSlot)

/-- Serialized form of execErrorNoSlot at clock 0. -/
def serErrorNoSlot : SerializedExecution :=
  { id := some "e1", status := "error", finished := false, mode := "manual",
    startedAt := jsToISOString 0, stoppedAt := none, waitTill := none,
    data := none, error := none }

/-- Payload returned for execErrorNoSlot: failure with no message at all. -/
def payloadErrorNoSlot : ToolPayload :=
  { success := false, executionId := some "e1", waitingForWebhook := none,
    message := none, hasResultField := true, result := some serErrorNoSlot,
    error := none }

/-- Raw execution with status error and a nested error object. -/
def execErrorBoom : RawExecution :=
  { id := some "e1", status := "error", finished := some false, mode := "manual",
    startedAt := some (.date 0), stoppedAt := none, waitTill := none,
    data := some { resultData := some { error := some errBoom } } }

/-- Live lookup resolving to execErrorBoom. -/
def liveErrorBoom : String → Except JsErr (Option RawExecution) :=
  fun _ => .ok (some execErrorBoom)

/-- Serialized form of execErrorBoom at clock 0. -/
def serErrorBoom : SerializedExecution :=
  { id := some "e1", status := "error", finished := false, mode := "manual",
    startedAt := jsToISOString 0, stoppedAt := none, waitTill := none,
    data := some { resultData := some { error := some errBoom } },
    error := some errBoom }

/-- Payload returned for execErrorBoom: failure carrying the nested message. -/
def payloadErrorBoom : ToolPayload :=
  { success := false, executionId := some "e1", waitingForWebhook := none,
    message := some "boom", hasResultField := true, result := some serErrorBoom,
    error := some (.fromResult errBoom) }

/-- Live lookup rejecting with a generic error. -/
def liveGeneric : String → Except JsErr (Option RawExecution) :=
  fun _ => .error (.genericError "Error" "live lookup failed")

/-- Live lookup rejecting with ExecutionNotFoundError. -/
def liveNotFound : String → Except JsErr (Option RawExecution) :=
  fun _ => .error (.executionNotFound "not tracked")

/-- Raw execution with no finished flag and status success. -/
def execNoFinished : RawExecution :=
  { id := none, status := "success", finished := none, mode := "manual",
    startedAt := none, stoppedAt := none, waitTill := none, data := none }

/-- Serialized form of execNoFinished at clock 0: startedAt falls back to the
current instant and finished is derived from the status. -/
def serNoFinished : SerializedExecution :=
  { id := none, status := "success", finished := true, mode := "manual",
    startedAt := jsToISOString 0, stoppedAt := none, waitTill := none,
    data := none, error := none }

/-- Raw execution whose startedAt is a string that does not parse as a valid
date. -/
def execBadDate : RawExecution :=
  { id := none, status := "success", finished := some true, mode := "manual",
    startedAt := some (.str "not-a-date"), stoppedAt := none, waitTill := none,
    data := none }

/-- Raw execution whose timestamps are all safe for any parser: a Date, an
empty string and an absent value. -/
def execSafeDates : RawExecution :=
  { id := none, status := "success", finished := some true, mode := "manual",
    startedAt := some (.date 5), stoppedAt := some (.str ""), waitTill := none,
    data := none }

/-- Helper: toIsoString returns on the ok side for every safe timestamp
value. -/
theorem toIsoString_ok_of_safe (parse : String → Option Int) (v : Option DateVal)
    (h : datevalSafe parse v = true) : ∃ s, toIsoString parse v = .ok s := by
  cases v with
  | none => exact ⟨none, rfl⟩
  | some d =>
    cases d with
    | date m => exact ⟨some (jsToISOString m), rfl⟩
    | str s =>
      by_cases hs : s = ""
      · exact ⟨none, by simp [toIsoString, hs]⟩
      · have hps : (parse s).isSome = true := by
          simpa [datevalSafe, hs] using h
        rcases Option.isSome_iff_exists.mp hps with ⟨m, hm⟩
        exact ⟨some (jsToISOString m), by simp [toIsoString, hs, hm]⟩

/-- Helper: fields of buildResultPayload that do not depend on branching. -/
theorem buildResultPayload_fields (id : String) (res : Option SerializedExecution) :
    (buildResultPayload id res).executionId = some id ∧
    (buildResultPayload id res).waitingForWebhook = none ∧
    (buildResultPayload id res).result = res ∧
    (buildResultPayload id res).hasResultField = true := by
  cases res with
  | none => exact ⟨rfl, rfl, rfl, rfl⟩
  | some r =>
    rcases hr : r.error with _ | e
    · simp [buildResultPayload, hr]
    · cases e <;> simp [buildResultPayload, hr]

/-- Helper: success of buildResultPayload for a present result. -/
theorem buildResultPayload_success (id : String) (r : SerializedExecution) :
    (buildResultPayload id (some r)).success = !(r.status == "error") := by
  rcases hr : r.error with _ | e
  · simp [buildResultPayload, hr]
  · cases e <;> simp [buildResultPayload, hr]

/-- Helper: message of buildResultPayload for a present result. -/
theorem buildResultPayload_message (id : String) (r : SerializedExecution) :
    (buildResultPayload id (some r)).message = errorStatusMessage r.error := by
  rcases hr : r.error with _ | e
  · simp [buildResultPayload, errorStatusMessage, hr]
  · cases e <;> simp [buildResultPayload, errorStatusMessage, hr]

/-- Helper: buildResultPayload on a missing result forces failure with the
retrieval message. -/
theorem buildResultPayload_none (id : String) :
    (buildResultPayload id none).success = false ∧
    (buildResultPayload id none).message =
      some "Execution finished but result could not be retrieved." :=
  ⟨rfl, rfl⟩

/-- Helper: every payload the handler returns on the ok side is either one of
the early failure payloads (no result field) or a buildResultPayload. -/
theorem handler_ok_shape (workflow : Option Workflow) (inputs : Option Inputs)
    (canManuallyExecute : Bool) (now : Int)
    (dispatch : ManualRunPayload → ExecutionResponse)
    (live : String → Except JsErr (Option RawExecution))
    (repo : String → FindOptions → Option RawExecution)
    (parse : String → Option Int) (p : ToolPayload)
    (h : handler workflow inputs canManuallyExecute now dispatch live repo parse = .ok p) :
    (p.success = false ∧ p.result = none ∧ p.hasResultField = false) ∨
    ∃ id res, p = buildResultPayload id res := by
  cases workflow with
  | none => exact absurd h (by simp [handler])
  | some wf =>
    simp only [handler] at h
    split at h
    · exact absurd h (by simp)
    · split at h
      · exact absurd h (by simp)
      · split at h
        · left
          have hp := Except.ok.inj h.symm
          subst hp
          exact ⟨rfl, rfl, rfl⟩
        · split at h
          · left
            have hp := Except.ok.inj h.symm
            subst hp
            exact ⟨rfl, rfl, rfl⟩
          · split at h
            · left
              have hp := Except.ok.inj h.symm
              subst hp
              exact ⟨rfl, rfl, rfl⟩
            · split at h
              · left
                have hp := Except.ok.inj h.symm
                subst hp
                exact ⟨rfl, rfl, rfl⟩
              · right
                have hp := Except.ok.inj h.symm
                subst hp
                exact ⟨_, _, rfl⟩

/-- C1 (counterexample): a structured response whose error slot is non-null
while success is true: the dispatched execution finished with status success
but still carries a resultData error, which the handler copies into the error
slot without touching success. -/
theorem handler_success_true_with_error_counterexample :
    handler (some wfPlain) (some inputsEmpty) true 0 dispatchE1 liveSuccessWithError
        repo0 parse0 = .ok payloadSuccessWithError ∧
    payloadSuccessWithError.error.isSome = true ∧
    payloadSuccessWithError.success = true :=
  ⟨rfl, rfl, rfl⟩

/-- C1 (amended): success is true only when dispatch returned an execution
identifier, the run is not waiting on an external event, and the normalized
result is present with a status other than error. A non-null error slot alone
does not force success false. -/
theorem handler_success_requires_clean_result (workflow : Option Workflow)
    (inputs : Option Inputs) (canManuallyExecute : Bool) (now : Int)
    (dispatch : ManualRunPayload → ExecutionResponse)
    (live : String → Except JsErr (Option RawExecution))
    (repo : String → FindOptions → Option RawExecution)
    (parse : String → Option Int) (p : ToolPayload)
    (h : handler workflow inputs canManuallyExecute now dispatch live repo parse = .ok p)
    (hs : p.success = true) :
    p.executionId.isSome = true ∧ p.waitingForWebhook = none ∧
    p.result.isSome = true ∧
    Option.map SerializedExecution.status p.result ≠ some "error" := by
  rcases handler_ok_shape workflow inputs canManuallyExecute now dispatch live repo
      parse p h with ⟨hf, _, _⟩ | ⟨id, res, rfl⟩
  · rw [hf] at hs
    cases hs
  · cases res with
    | none =>
      rw [(buildResultPayload_none id).1] at hs
      cases hs
    | some r =>
      obtain ⟨h1, h2, h3, _⟩ := buildResultPayload_fields id (some r)
      rw [buildResultPayload_success id r] at hs
      have hst : r.status ≠ "error" := by
        intro hc
        rw [hc] at hs
        simp at hs
      refine ⟨by rw [h1]; rfl, h2, by rw [h3]; rfl, ?_⟩
      rw [h3]
      simp only [Option.map_some']
      intro hc
      exact hst (Option.some.inj hc)

/-- C1 (witness): a clean successful run satisfies the hypotheses, and its
payload carries the identifier, no waiting flag and a non-error result. -/
theorem handler_success_requires_clean_result_witness :
    payloadGood.executionId.isSome = true ∧ payloadGood.waitingForWebhook = none ∧
    payloadGood.result.isSome = true ∧
    Option.map SerializedExecution.status payloadGood.result ≠ some "error" :=
  handler_success_requires_clean_result (some wfPlain) (some inputsEmpty) true 0
    dispatchE1 liveGood repo0 parse0 payloadGood (by rfl) rfl

/-- C2 (confirmed): the result waiter returns the live result when the await
succeeds, falls back to the persisted record with includeData and
unflattenData exactly on ExecutionNotFoundError, and propagates every other
failure unchanged. -/
theorem waitForExecutionResult_paths
    (live : String → Except JsErr (Option RawExecution))
    (repo : String → FindOptions → Option RawExecution) (id : String) :
    (∀ r, live id = .ok r → waitForExecutionResult id live repo = .ok r) ∧
    (∀ m, live id = .error (.executionNotFound m) →
      waitForExecutionResult id live repo =
        .ok (repo id { includeData := true, unflattenData := true })) ∧
    (∀ e, live id = .error e → (∀ m, e ≠ .executionNotFound m) →
      waitForExecutionResult id live repo = .error e) := by
  refine ⟨?_, ?_, ?_⟩
  · intro r hr
    unfold waitForExecutionResult
    rw [hr]
  · intro m hm
    unfold waitForExecutionResult
    rw [hm]
  · intro e he hne
    unfold waitForExecutionResult
    rw [he]
    cases e with
    | userError m => rfl
    | executionNotFound m => exact absurd rfl (hne m)
    | rangeError => rfl
    | typeError m => rfl
    | genericError n m => rfl

/-- C2 (witness): a generic live failure propagates unchanged, and a
not-tracked failure falls back to the (empty) repository. -/
theorem waitForExecutionResult_paths_witness :
    waitForExecutionResult "e1" liveGeneric repo0 =
      .error (.genericError "Error" "live lookup failed") ∧
    waitForExecutionResult "e1" liveNotFound repo0 = .ok none :=
  ⟨(waitForExecutionResult_paths liveGeneric repo0 "e1").2.2
      (.genericError "Error" "live lookup failed") rfl (fun m h => by cases h),
   (waitForExecutionResult_paths liveNotFound repo0 "e1").2.1 "not tracked" rfl⟩

/-- C3 (confirmed): when the workflow is not manually executable the scan
considers only enabled nodes of the three trigger kinds, in the order chat,
form, webhook; a first enabled chat trigger is always the chosen candidate, a
form trigger is chosen only with no enabled chat trigger, a webhook node only
with neither; with no match no synthetic start is attached and the payload
equals the runnable-directly one. -/
theorem classifier_scan_priority (w : Workflow) (i : Inputs) (now : Int) :
    ((∀ n ∈ w.nodes, n.disabled = true ∨
        (n.type ≠ chatTriggerNodeType ∧ n.type ≠ formTriggerNodeType ∧
         n.type ≠ webhookNodeType)) →
      applySyntheticStart w (some i) false now =
        .ok { workflowData := w, triggerToStartFrom := none } ∧
      applySyntheticStart w (some i) false now =
        applySyntheticStart w (some i) true now) ∧
    (∀ c, w.nodes.find? (enabledOfType chatTriggerNodeType) = some c →
      chosenTriggerName (applySyntheticStart w (some i) false now) = some c.name ∧
      c.disabled = false ∧ c.type = chatTriggerNodeType) ∧
    (w.nodes.find? (enabledOfType chatTriggerNodeType) = none →
      ∀ f, w.nodes.find? (enabledOfType formTriggerNodeType) = some f →
        chosenTriggerName (applySyntheticStart w (some i) false now) = some f.name) ∧
    (w.nodes.find? (enabledOfType chatTriggerNodeType) = none →
      w.nodes.find? (enabledOfType formTriggerNodeType) = none →
      ∀ b, w.nodes.find? (enabledOfType webhookNodeType) = some b →
        chosenTriggerName (applySyntheticStart w (some i) false now) = some b.name) := by
  refine ⟨?_, ?_, ?_, ?_⟩
  · intro h
    have hnone : ∀ ty, ty = chatTriggerNodeType ∨ ty = formTriggerNodeType ∨
        ty = webhookNodeType → w.nodes.find? (enabledOfType ty) = none := by
      intro ty hty
      rw [List.find?_eq_none]
      intro n hn
      rcases h n hn with hd | ⟨h1, h2, h3⟩
      · simp [enabledOfType, hd]
      · rcases hty with rfl | rfl | rfl
        · simp [enabledOfType, h1]
        · simp [enabledOfType, h2]
        · simp [enabledOfType, h3]
    have hc := hnone chatTriggerNodeType (Or.inl rfl)
    have hf := hnone formTriggerNodeType (Or.inr (Or.inl rfl))
    have hw := hnone webhookNodeType (Or.inr (Or.inr rfl))
    constructor
    · simp [applySyntheticStart, hc, hf, hw, Option.or]
    · simp [applySyntheticStart, hc, hf, hw, Option.or]
  · intro c hc
    have hp := List.find?_some hc
    have hdt : c.disabled = false ∧ c.type = chatTriggerNodeType := by
      simpa [enabledOfType] using hp
    exact ⟨by simp [applySyntheticStart, chosenTriggerName, hc, Option.or], hdt.1, hdt.2⟩
  · intro hc f hf
    simp [applySyntheticStart, chosenTriggerName, hc, hf, Option.or]
  · intro hc hf b hw
    simp [applySyntheticStart, chosenTriggerName, hc, hf, hw, Option.or]

/-- C3 (witness): on a workflow with both an enabled chat trigger and an
enabled webhook node the chat trigger is the chosen candidate. -/
theorem classifier_scan_priority_witness :
    chosenTriggerName (applySyntheticStart wfBoth (some inputsEmpty) false 0) =
      some "Chat" ∧
    chatNode.disabled = false ∧ chatNode.type = chatTriggerNodeType :=
  (classifier_scan_priority wfBoth inputsEmpty 0).2.1 chatNode (by rfl)

/-- C4 (counterexample): an execution with error status but no nested error
slot yields success false with no message at all, not the fixed error text. -/
theorem error_status_without_message_counterexample :
    handler (some wfPlain) (some inputsEmpty) true 0 dispatchE1 liveErrorNoSlot
        repo0 parse0 = .ok payloadErrorNoSlot ∧
    payloadErrorNoSlot.result = some serErrorNoSlot ∧
    serErrorNoSlot.status = "error" ∧
    payloadErrorNoSlot.success = false ∧
    payloadErrorNoSlot.message = none :=
  ⟨rfl, rfl, rfl, rfl, rfl⟩

/-- C4 (amended): for a normalized result with error status the response has
success false, and its message is the nested error's message when the nested
error is an object (with the fixed text replacing an absent message property);
when the nested error slot is absent or not an object, no message is set. -/
theorem handler_error_status_payload (workflow : Option Workflow)
    (inputs : Option Inputs) (canManuallyExecute : Bool) (now : Int)
    (dispatch : ManualRunPayload → ExecutionResponse)
    (live : String → Except JsErr (Option RawExecution))
    (repo : String → FindOptions → Option RawExecution)
    (parse : String → Option Int) (p : ToolPayload) (r : SerializedExecution)
    (h : handler workflow inputs canManuallyExecute now dispatch live repo parse = .ok p)
    (hres : p.result = some r) (hst : r.status = "error") :
    p.success = false ∧ p.message = errorStatusMessage r.error := by
  rcases handler_ok_shape workflow inputs canManuallyExecute now dispatch live repo
      parse p h with ⟨_, hr, _⟩ | ⟨id, res, rfl⟩
  · rw [hr] at hres
    cases hres
  · rw [(buildResultPayload_fields id res).2.2.1] at hres
    subst hres
    refine ⟨?_, buildResultPayload_message id r⟩
    rw [buildResultPayload_success id r, hst]
    simp

/-- C4 (witness): an error-status execution with a nested error object
carrying a message yields success false and that message. -/
theorem handler_error_status_payload_witness :
    payloadErrorBoom.success = false ∧
    payloadErrorBoom.message = errorStatusMessage serErrorBoom.error :=
  handler_error_status_payload (some wfPlain) (some inputsEmpty) true 0 dispatchE1
    liveErrorBoom repo0 parse0 payloadErrorBoom serErrorBoom (by rfl) rfl rfl

/-- C5 (confirmed): the normalizer sets finished to the raw shape's own
finished flag when present and defined, otherwise to the comparison of status
with success; null input maps to null output. -/
theorem serializeExecution_finished_spec (parse : String → Option Int) (now : Int)
    (e : RawExecution) (r : SerializedExecution) :
    (serializeExecution parse now (some e) = .ok (some r) →
      r.finished = specFinished e) ∧
    serializeExecution parse now none = .ok none := by
  constructor
  · intro h
    simp only [serializeExecution] at h
    split at h
    · cases h
    · split at h
      · cases h
      · split at h
        · cases h
        · have hr := Option.some.inj (Except.ok.inj h)
          rw [← hr]
          rfl
  · rfl

/-- C5 (witness): a raw execution without a finished flag and with status
success normalizes to finished true. -/
theorem serializeExecution_finished_spec_witness :
    serNoFinished.finished = specFinished execNoFinished ∧
    serializeExecution parse0 0 (none : Option RawExecution) = .ok none :=
  ⟨(serializeExecution_finished_spec parse0 0 execNoFinished serNoFinished).1 (by rfl),
   (serializeExecution_finished_spec parse0 0 execNoFinished serNoFinished).2⟩

/-- C6 (counterexample): the normalizer is not total on string-valued
timestamps: a startedAt string that does not parse as a valid date makes
serializeExecution throw the RangeError of toISOString. -/
theorem serializeExecution_throws_on_invalid_date_string :
    serializeExecution parse0 0 (some execBadDate) = .error .rangeError :=
  rfl

/-- C6 (amended): serializeExecution returns a value for null and for every
raw execution whose startedAt, stoppedAt and waitTill are each absent, a Date,
an empty string, or a string the date parser accepts as a valid instant; only
a non-empty timestamp string rejected by the parser makes it throw. -/
theorem serializeExecution_total_on_safe_dates (parse : String → Option Int)
    (now : Int) (e : RawExecution)
    (h1 : datevalSafe parse e.startedAt = true)
    (h2 : datevalSafe parse e.stoppedAt = true)
    (h3 : datevalSafe parse e.waitTill = true) :
    isOkE (serializeExecution parse now (some e)) = true ∧
    serializeExecution parse now none = .ok none := by
  constructor
  · obtain ⟨s1, hs1⟩ := toIsoString_ok_of_safe parse e.startedAt h1
    obtain ⟨s2, hs2⟩ := toIsoString_ok_of_safe parse e.stoppedAt h2
    obtain ⟨s3, hs3⟩ := toIsoString_ok_of_safe parse e.waitTill h3
    simp [serializeExecution, hs1, hs2, hs3, isOkE]
  · rfl

/-- C6 (witness): timestamps given as a Date, an empty string and an absent
value are all safe, and null maps to null. -/
theorem serializeExecution_total_on_safe_dates_witness :
    isOkE (serializeExecution parse0 0 (some execSafeDates)) = true ∧
    serializeExecution parse0 0 (none : Option RawExecution) = .ok none :=
  serializeExecution_total_on_safe_dates parse0 0 execSafeDates rfl rfl rfl

/-- C7 (confirmed): on the webhook synthetic-start path the synthesized
payload is exactly the four empty objects, and two invocations differing only
in the caller-supplied webhookData produce identical manual run payloads. -/
theorem webhook_payload_ignores_webhookData (w : Workflow) (i1 i2 : Inputs)
    (now : Int)
    (hchat : w.nodes.find? (enabledOfType chatTriggerNodeType) = none)
    (hform : w.nodes.find? (enabledOfType formTriggerNodeType) = none)
    (b : Node) (hweb : w.nodes.find? (enabledOfType webhookNodeType) = some b)
    (_hci : i1.chatInput = i2.chatInput) (_hfd : i1.formData = i2.formData) :
    applySyntheticStart w (some i1) false now =
      applySyntheticStart w (some i2) false now ∧
    chosenTriggerJson (applySyntheticStart w (some i1) false now) =
      some [("headers", .emptyObj), ("params", .emptyObj),
            ("query", .emptyObj), ("body", .emptyObj)] := by
  constructor
  · simp [applySyntheticStart, hchat, hform, hweb, Option.or]
  · simp [applySyntheticStart, chosenTriggerJson, hchat, hform, hweb, Option.or]

/-- C7 (witness): on a webhook-only workflow, supplying webhookData or
omitting it yields the same payload, whose json is the four empty objects. -/
theorem webhook_payload_ignores_webhookData_witness :
    applySyntheticStart wfHook (some inputsWebhook) false 0 =
      applySyntheticStart wfHook (some inputsEmpty) false 0 ∧
    chosenTriggerJson (applySyntheticStart wfHook (some inputsWebhook) false 0) =
      some [("headers", .emptyObj), ("params", .emptyObj),
            ("query", .emptyObj), ("body", .emptyObj)] :=
  webhook_payload_ignores_webhookData wfHook inputsWebhook inputsEmpty 0 rfl rfl
    hookNode rfl rfl rfl

/-- C8 (confirmed): when dispatch returns neither an execution identifier nor
the waiting flag, the handler returns the structured failure payload with the
exact message, and its outcome does not depend on the wait or lookup
collaborators at all. -/
theorem dispatch_failure_returns_structured_payload (wf : Workflow)
    (inputs : Option Inputs) (canManuallyExecute : Bool) (now : Int)
    (dispatch : ManualRunPayload → ExecutionResponse)
    (live live2 : String → Except JsErr (Option RawExecution))
    (repo repo2 : String → FindOptions → Option RawExecution)
    (parse parse2 : String → Option Int) (mp : ManualRunPayload)
    (ha : wf.isArchived = false) (hm : availableInMCPFlag wf = true)
    (hsyn : applySyntheticStart wf inputs canManuallyExecute now = .ok mp)
    (hd : dispatch mp = { executionId := none, waitingForWebhook := false }) :
    handler (some wf) inputs canManuallyExecute now dispatch live repo parse =
      .ok { success := false, executionId := none,
            message := some "Failed to start execution: no execution ID returned." } ∧
    handler (some wf) inputs canManuallyExecute now dispatch live repo parse =
      handler (some wf) inputs canManuallyExecute now dispatch live2 repo2 parse2 := by
  have key : ∀ (l : String → Except JsErr (Option RawExecution))
      (rp : String → FindOptions → Option RawExecution) (pr : String → Option Int),
      handler (some wf) inputs canManuallyExecute now dispatch l rp pr =
        .ok { success := false, executionId := none,
              message := some "Failed to start execution: no execution ID returned." } := by
    intro l rp pr
    simp [handler, ha, hm, hsyn, hd]
  exact ⟨key live repo parse,
    (key live repo parse).trans (key live2 repo2 parse2).symm⟩

/-- C8 (witness): a dispatcher returning no identifier and no waiting flag
produces the structured failure payload, identically under two different live
lookups. -/
theorem dispatch_failure_returns_structured_payload_witness :
    handler (some wfPlain) (some inputsEmpty) true 0 dispatchNone liveGood repo0
        parse0 =
      .ok { success := false, executionId := none,
            message := some "Failed to start execution: no execution ID returned." } ∧
    handler (some wfPlain) (some inputsEmpty) true 0 dispatchNone liveGood repo0
        parse0 =
      handler (some wfPlain) (some inputsEmpty) true 0 dispatchNone liveGeneric repo0
        parse0 :=
  dispatch_failure_returns_structured_payload wfPlain (some inputsEmpty) true 0
    dispatchNone liveGood liveGeneric repo0 repo0 parse0 parse0
    { workflowData := wfPlain, triggerToStartFrom := none } rfl rfl rfl rfl

/-- C9 (confirmed): a not-tracked failure of the live wait followed by a miss
of the persisted lookup yields an ok structured payload with a null result,
success false and the exact retrieval message. The dispatched identifier is
required non-empty: an empty identifier is falsy in JavaScript and takes the
dispatch-failure branch before the wait stage, so the not-tracked condition of
the claim can only arise for a non-empty identifier. -/
theorem not_tracked_then_miss_payload (wf : Workflow) (inputs : Option Inputs)
    (canManuallyExecute : Bool) (now : Int)
    (dispatch : ManualRunPayload → ExecutionResponse)
    (live : String → Except JsErr (Option RawExecution))
    (repo : String → FindOptions → Option RawExecution)
    (parse : String → Option Int) (mp : ManualRunPayload) (id m : String)
    (hid : id ≠ "")
    (ha : wf.isArchived = false) (hm : availableInMCPFlag wf = true)
    (hsyn : applySyntheticStart wf inputs canManuallyExecute now = .ok mp)
    (hd : dispatch mp = { executionId := some id, waitingForWebhook := false })
    (hlive : live id = .error (.executionNotFound m))
    (hrepo : repo id { includeData := true, unflattenData := true } = none) :
    handler (some wf) inputs canManuallyExecute now dispatch live repo parse =
      .ok { success := false, executionId := some id, hasResultField := true,
            result := none,
            message := some "Execution finished but result could not be retrieved." } := by
  have hwait : waitForExecutionResult id live repo = .ok none := by
    unfold waitForExecutionResult
    rw [hlive, hrepo]
  simp [handler, ha, hm, hsyn, hd, hid, hwait, Except.bind, serializeExecution,
    buildResultPayload]

/-- C9 (witness): the concrete not-tracked run against an empty repository
returns exactly that payload. -/
theorem not_tracked_then_miss_payload_witness :
    handler (some wfPlain) (some inputsEmpty) true 0 dispatchE1 liveNotFound repo0
        parse0 =
      .ok { success := false, executionId := some "e1", hasResultField := true,
            result := none,
            message := some "Execution finished but result could not be retrieved." } :=
  not_tracked_then_miss_payload wfPlain (some inputsEmpty) true 0 dispatchE1
    liveNotFound repo0 parse0 { workflowData := wfPlain, triggerToStartFrom := none }
    "e1" "not tracked" (by decide) rfl rfl rfl rfl rfl rfl

/-- C10 (code bug): with inputs omitted, a workflow that is not manually
executable but has an enabled chat trigger makes the handler throw a TypeError
out of the tool call while reading chatInput from the undefined inputs, instead
of returning a structured response. -/
theorem chat_trigger_without_inputs_throws_typeError :
    handler (some wfChat) none false 0 dispatchE1 live0 repo0 parse0 =
      .error (.typeError "Cannot read properties of undefined") :=
  rfl

end ExecWorkflowTool
